import Mathlib

/-
Verification of the debug-verbosity controller in lib-logger-go (logger.go,
types.go).  The Go `logger` struct holds a per-service debug registry
(`debugModeMap : ServiceDebug`, a map[string]bool behind a mutex), a global
flag (`systemDebug`), and a background goroutine (`goDebug`) that owns an
idle-expiry ticker and consumes boolean activity signals from the `l.debug`
channel.  We embed the registry as an association list, the ticker as an
`Option Nat` of remaining time units, and each public API call as the
registry mutation composed with the controller loop's synchronous handling
of the activity signal it sends (the Go hand-off is a channel, processed in
arrival order by the single goDebug worker).
-/

namespace LoggerGo

/-- Go map[string]bool of ServiceDebug.debugMode, as an association list. -/
abbrev DebugMap := List (String × Bool)

/-- Go map read `mode, ok := m[k]`: the value stored for key k, if present. -/
def mapLookup (m : DebugMap) (k : String) : Option Bool :=
  match m with
  | [] => none
  | (k1, v) :: rest => if k1 = k then some v else mapLookup rest k

/-- Go map write `m[k] = v`: update in place if present, else append. -/
def mapInsert (m : DebugMap) (k : String) (v : Bool) : DebugMap :=
  match m with
  | [] => [(k, v)]
  | (k1, v1) :: rest =>
      if k1 = k then (k1, v) :: rest else (k1, v1) :: mapInsert rest k v

/-- Go `for serviceName := range m { m[serviceName] = v }`: set every entry. -/
def mapSetAll (m : DebugMap) (v : Bool) : DebugMap :=
  m.map (fun p => (p.1, v))

/-- Go loop in goDebug lines 301-308: whether any entry of the map is true. -/
def mapAnyTrue (m : DebugMap) : Bool :=
  m.any (fun p => p.2)

/-- State of the logger after Configure has created the registry: the
`started` lifecycle bit, the `systemDebug` global flag, the registry map,
the goDebug ticker (`some r` = armed with r time units remaining, `none` =
stopped), and the informational messages emitted via `l.Info`. -/
structure LoggerState where
  started : Bool
  systemDebug : Bool
  debugMode : DebugMap
  timer : Option Nat
  events : List String
deriving DecidableEq, Repr

/-- Configured logger with the goDebug loop running: empty registry, global
flag false, ticker stopped (goDebug calls expire.Stop() immediately). -/
def startedLogger : LoggerState :=
  { started := true, systemDebug := false, debugMode := [],
    timer := none, events := [] }

/-- Configured logger before Start: same state with started = false. -/
def stoppedLogger : LoggerState :=
  { started := false, systemDebug := false, debugMode := [],
    timer := none, events := [] }

/-- Handling of one activity signal by goDebug (logger.go lines 292-313):
a true signal restarts the ticker with the full configured duration D and
logs "Debug Mode Enabled"; a false signal stops the ticker only when no
registry entry is true (the global flag is not consulted), logging
"Debug Mode Disabled", and otherwise leaves the ticker untouched. -/
def processDebugSignal (D : Nat) (b : Bool) (s : LoggerState) : LoggerState :=
  if b then
    { s with timer := some D, events := s.events ++ ["Debug Mode Enabled"] }
  else if mapAnyTrue s.debugMode then s
  else
    { s with timer := none, events := s.events ++ ["Debug Mode Disabled"] }

/-- UpdateDebugMap (logger.go lines 179-183): unconditional map write, no
activity signal. -/
def updateDebugMap (s : LoggerState) (serviceName : String) (status : Bool) :
    LoggerState :=
  { s with debugMode := mapInsert s.debugMode serviceName status }

/-- EnableDebug(serviceName) (logger.go lines 204-213): set the entry to
true only if the name is already present, then send a true signal. -/
def enableDebugNamed (D : Nat) (serviceName : String) (s : LoggerState) :
    LoggerState :=
  match mapLookup s.debugMode serviceName with
  | some _ =>
      processDebugSignal D true
        { s with debugMode := mapInsert s.debugMode serviceName true }
  | none => processDebugSignal D true s

/-- DisableDebug(serviceName) (logger.go lines 221-230): set the entry to
false only if the name is already present, then send a false signal. -/
def disableDebugNamed (D : Nat) (serviceName : String) (s : LoggerState) :
    LoggerState :=
  match mapLookup s.debugMode serviceName with
  | some _ =>
      processDebugSignal D false
        { s with debugMode := mapInsert s.debugMode serviceName false }
  | none => processDebugSignal D false s

/-- SetSystemDebugStatus (logger.go lines 238-248): set every existing
entry and the global flag to status, then send status as a signal. -/
def setSystemDebugStatus (D : Nat) (status : Bool) (s : LoggerState) :
    LoggerState :=
  processDebugSignal D status
    { s with debugMode := mapSetAll s.debugMode status, systemDebug := status }

/-- EnableDebug() with no name (logger.go line 216): SetSystemDebugStatus true. -/
def enableDebugAll (D : Nat) (s : LoggerState) : LoggerState :=
  setSystemDebugStatus D true s

/-- DisableDebug() with no name (logger.go line 233): SetSystemDebugStatus false. -/
def disableDebugAll (D : Nat) (s : LoggerState) : LoggerState :=
  setSystemDebugStatus D false s

/-- IsDebugEnabled(serviceName) with a name (logger.go lines 190-195): the
stored entry if present, else the zero value false; systemDebug is not read. -/
def isDebugEnabledNamed (s : LoggerState) (serviceName : String) : Bool :=
  (mapLookup s.debugMode serviceName).getD false

/-- IsDebugEnabled() with no name (logger.go line 197): the global flag. -/
def isDebugEnabledGlobal (s : LoggerState) : Bool :=
  s.systemDebug

/-- CheckDebugMap (logger.go lines 254-258): membership of the name. -/
def checkDebugMap (s : LoggerState) (serviceName : String) : Bool :=
  (mapLookup s.debugMode serviceName).isSome

/-- Expiry branch of goDebug (logger.go lines 281-290): on ticker fire, stop
the ticker, log "Debug Timer Expired", set every entry and systemDebug to
false. -/
def expireTimer (s : LoggerState) : LoggerState :=
  { s with debugMode := mapSetAll s.debugMode false, systemDebug := false,
           timer := none, events := s.events ++ ["Debug Timer Expired"] }

/-- One time unit passing with no activity: an armed ticker counts down and
fires the expiry branch when its remaining time is exhausted; a stopped
ticker does nothing. -/
def tick (s : LoggerState) : LoggerState :=
  match s.timer with
  | none => s
  | some r => if r ≤ 1 then expireTimer s else { s with timer := some (r - 1) }

/-- n time units passing with no activity. -/
def elapse (n : Nat) (s : LoggerState) : LoggerState :=
  match n with
  | 0 => s
  | n + 1 => elapse n (tick s)

/-- Start (logger.go lines 133-148): if already started, return with the
zero-valued err (nil); otherwise launch goDebug (ticker initially stopped)
and set started.  The second component models the returned error, none = nil. -/
def start (s : LoggerState) : LoggerState × Option String :=
  if s.started then (s, none)
  else ({ s with started := true, timer := none }, none)

/-- Stop (logger.go lines 151-169): if not started, return with the
zero-valued err (nil); otherwise replace the registry with a fresh empty
map, close the stopper so goDebug exits (ticker stopped by its defer), wait
for it, and clear started.  systemDebug is not touched. -/
def stop (s : LoggerState) : LoggerState × Option String :=
  if s.started then
    ({ s with debugMode := [], timer := none, started := false }, none)
  else (s, none)

/-- Registry operations named by claim C1: UpdateDebugMap, EnableDebug with
a name, DisableDebug with a name. -/
inductive RegOp where
  | update (name : String) (status : Bool)
  | enable (name : String)
  | disable (name : String)
deriving DecidableEq

/-- Dispatch of one registry operation to the corresponding logger method. -/
def applyOp (D : Nat) (s : LoggerState) : RegOp → LoggerState
  | .update n b => updateDebugMap s n b
  | .enable n => enableDebugNamed D n s
  | .disable n => disableDebugNamed D n s

/-- Execution of a sequence of registry operations, first to last. -/
def runOps (D : Nat) (ops : List RegOp) (s : LoggerState) : LoggerState :=
  ops.foldl (applyOp D) s

/-- Modelled from the spec: effect of one operation on the last value
written for a fixed name, where UpdateDebugMap always writes and
EnableDebug/DisableDebug write true/false only for an already-inserted
name. -/
def specStep (name : String) (acc : Option Bool) : RegOp → Option Bool
  | .update n b => if n = name then some b else acc
  | .enable n => if n = name then acc.map (fun _ => true) else acc
  | .disable n => if n = name then acc.map (fun _ => false) else acc

/-- Modelled from the spec: the last boolean value written for name by a
sequence of registry operations, none when name was never inserted. -/
def specLastWrite (ops : List RegOp) (name : String) : Option Bool :=
  ops.foldl (specStep name) none

/-- Logger as built by NewLogger (logger.go lines 83-92), before Configure:
only the debug channel is created, so debugModeMap holds the zero value of
ServiceDebug — a nil map and a nil mutex pointer — modelled as none.
Configure (lines 114-118) replaces it with a fresh empty map and mutex. -/
structure RawLogger where
  systemDebug : Bool
  debugModeMap : Option DebugMap
  started : Bool
deriving DecidableEq

/-- NewLogger (logger.go lines 83-92): zero-valued fields apart from the
debug channel; the registry map and its mutex are nil. -/
def newLogger : RawLogger :=
  { systemDebug := false, debugModeMap := none, started := false }

/-- Configure (logger.go lines 94-120): creates the debugger map and its
mutex. -/
def configure (r : RawLogger) : RawLogger :=
  { r with debugModeMap := some [] }

/-- Go runtime panic raised by calling Lock on a nil mutex pointer. -/
def nilDeref : String :=
  "runtime error: invalid memory address or nil pointer dereference"

/-- Whether a modelled call returns normally rather than panicking. -/
def rawOk {α : Type} (e : Except String α) : Bool :=
  match e with
  | .ok _ => true
  | .error _ => false

/-- UpdateDebugMap on a possibly unconfigured logger: the method starts with
l.debugModeMap.mu.Lock(), which dereferences the nil mutex pointer and
panics when Configure has not run. -/
def rawUpdateDebugMap (r : RawLogger) (n : String) (b : Bool) :
    Except String RawLogger :=
  match r.debugModeMap with
  | none => .error nilDeref
  | some m => .ok { r with debugModeMap := some (mapInsert m n b) }

/-- IsDebugEnabled with a name on a possibly unconfigured logger: it locks
the registry mutex before the map read, so it panics when the mutex is nil. -/
def rawIsDebugEnabledNamed (r : RawLogger) (n : String) : Except String Bool :=
  match r.debugModeMap with
  | none => .error nilDeref
  | some m => .ok ((mapLookup m n).getD false)

/-- EnableDebug with a name on a possibly unconfigured logger (registry
mutation only; the activity signal does not touch the registry). -/
def rawEnableDebugNamed (r : RawLogger) (n : String) : Except String RawLogger :=
  match r.debugModeMap with
  | none => .error nilDeref
  | some m =>
      match mapLookup m n with
      | some _ => .ok { r with debugModeMap := some (mapInsert m n true) }
      | none => .ok { r with debugModeMap := some m }

/-- DisableDebug with a name on a possibly unconfigured logger. -/
def rawDisableDebugNamed (r : RawLogger) (n : String) : Except String RawLogger :=
  match r.debugModeMap with
  | none => .error nilDeref
  | some m =>
      match mapLookup m n with
      | some _ => .ok { r with debugModeMap := some (mapInsert m n false) }
      | none => .ok { r with debugModeMap := some m }

/-- CheckDebugMap (logger.go lines 254-258) on a possibly unconfigured
logger: it takes no lock and only reads the map; a read from a nil Go map
returns the zero value, so the call is safe and reports false. -/
def rawCheckDebugMap (r : RawLogger) (n : String) : Bool :=
  match r.debugModeMap with
  | none => false
  | some m => (mapLookup m n).isSome

/-- Lookup after a map write sees the written value at the written key and
is unchanged elsewhere. -/
theorem mapLookup_mapInsert (m : DebugMap) (k key : String) (v : Bool) :
    mapLookup (mapInsert m k v) key
      = if k = key then some v else mapLookup m key := by
  induction m with
  | nil => simp [mapInsert, mapLookup]
  | cons p rest ih =>
      obtain ⟨k1, v1⟩ := p
      by_cases h1 : k1 = k
      · subst h1
        by_cases h2 : k1 = key <;> simp [mapInsert, mapLookup, h2]
      · by_cases h2 : k1 = key
        · subst h2
          have hne : k ≠ k1 := fun h => h1 h.symm
          simp [mapInsert, mapLookup, h1, hne]
        · simp [mapInsert, mapLookup, h1, h2, ih]

/-- Lookup after setting every entry maps any present value to the new one. -/
theorem mapLookup_mapSetAll (m : DebugMap) (b : Bool) (k : String) :
    mapLookup (mapSetAll m b) k = (mapLookup m k).map (fun _ => b) := by
  induction m with
  | nil => rfl
  | cons p rest ih =>
      obtain ⟨k1, v1⟩ := p
      by_cases h : k1 = k
      · simp [mapSetAll, mapLookup, h]
      · simpa [mapSetAll, mapLookup, h] using ih

/-- Setting every entry false leaves no true entry. -/
theorem mapAnyTrue_mapSetAll_false (m : DebugMap) :
    mapAnyTrue (mapSetAll m false) = false := by
  induction m with
  | nil => rfl
  | cons p rest ih => simp [mapAnyTrue, mapSetAll]

/-- goDebug signal handling never touches the registry map. -/
theorem processDebugSignal_debugMode (D : Nat) (b : Bool) (s : LoggerState) :
    (processDebugSignal D b s).debugMode = s.debugMode := by
  unfold processDebugSignal
  split
  · rfl
  · split <;> rfl

/-- goDebug signal handling never touches the global flag. -/
theorem processDebugSignal_systemDebug (D : Nat) (b : Bool) (s : LoggerState) :
    (processDebugSignal D b s).systemDebug = s.systemDebug := by
  unfold processDebugSignal
  split
  · rfl
  · split <;> rfl

/-- EnableDebug with a name always restarts the ticker at the full duration. -/
theorem enableDebugNamed_timer (D : Nat) (n : String) (s : LoggerState) :
    (enableDebugNamed D n s).timer = some D := by
  unfold enableDebugNamed
  split <;> rfl

/-- EnableDebug with a name never touches the global flag. -/
theorem enableDebugNamed_systemDebug (D : Nat) (n : String) (s : LoggerState) :
    (enableDebugNamed D n s).systemDebug = s.systemDebug := by
  unfold enableDebugNamed
  split <;> rw [processDebugSignal_systemDebug]

/-- DisableDebug with a name never touches the global flag. -/
theorem disableDebugNamed_systemDebug (D : Nat) (n : String) (s : LoggerState) :
    (disableDebugNamed D n s).systemDebug = s.systemDebug := by
  unfold disableDebugNamed
  split <;> rw [processDebugSignal_systemDebug]

/-- Replacing the timer field with its own value is the identity. -/
theorem timer_eta (s : LoggerState) (t : Option Nat) (h : s.timer = t) :
    { s with timer := t } = s := by
  cases s
  cases h
  rfl

/-- Ticking a disarmed state does nothing. -/
theorem tick_none (s : LoggerState) (h : s.timer = none) : tick s = s := by
  unfold tick
  rw [h]

/-- Waiting on a disarmed state does nothing. -/
theorem elapse_none (n : Nat) (s : LoggerState) (h : s.timer = none) :
    elapse n s = s := by
  induction n with
  | zero => rfl
  | succ n ih =>
      show elapse n (tick s) = s
      rw [tick_none s h, ih]

/-- Waiting decomposes over addition of durations. -/
theorem elapse_add (a b : Nat) (s : LoggerState) :
    elapse (a + b) s = elapse b (elapse a s) := by
  induction a generalizing s with
  | zero => simp [elapse]
  | succ a ih =>
      have hrw : a + 1 + b = (a + b) + 1 := by omega
      rw [hrw]
      show elapse (a + b) (tick s) = elapse b (elapse (a + 1) s)
      rw [ih]
      rfl

/-- A timer armed with r remaining units fires the expiry branch after
exactly r units of inactivity. -/
theorem elapse_fire :
    ∀ (r : Nat) (s : LoggerState), s.timer = some r → 1 ≤ r →
      elapse r s = expireTimer s := by
  intro r
  induction r with
  | zero => intro s h hr; omega
  | succ r ih =>
      intro s h hr
      cases r with
      | zero =>
          show elapse 0 (tick s) = expireTimer s
          unfold tick
          rw [h]
          rfl
      | succ r1 =>
          show elapse (r1 + 1) (tick s) = expireTimer s
          have ht : tick s = { s with timer := some (r1 + 1) } := by
            unfold tick
            rw [h]
            have hgt : ¬ (r1 + 1 + 1 ≤ 1) := by omega
            simp [hgt]
          rw [ht, ih { s with timer := some (r1 + 1) } rfl (by omega)]
          rfl

/-- A timer armed with r remaining units still counts down, without firing,
after fewer than r units of inactivity. -/
theorem elapse_countdown :
    ∀ (k r : Nat) (s : LoggerState), s.timer = some r → k < r →
      elapse k s = { s with timer := some (r - k) } := by
  intro k
  induction k with
  | zero =>
      intro r s h _
      show s = { s with timer := some (r - 0) }
      rw [Nat.sub_zero, ← h]
  | succ k ih =>
      intro r s h hk
      have ht : tick s = { s with timer := some (r - 1) } := by
        unfold tick
        rw [h]
        have hgt : ¬ (r ≤ 1) := by omega
        simp [hgt]
      show elapse k (tick s) = { s with timer := some (r - (k + 1)) }
      rw [ht, ih (r - 1) { s with timer := some (r - 1) } rfl (by omega)]
      have hrw : r - 1 - k = r - (k + 1) := by omega
      rw [hrw]

/-- Expiry leaves no entry of the registry true. -/
theorem expireTimer_anyTrue (s : LoggerState) :
    mapAnyTrue (expireTimer s).debugMode = false :=
  mapAnyTrue_mapSetAll_false s.debugMode

/-- Expiry makes every named query report false. -/
theorem isDebugEnabledNamed_expireTimer (s : LoggerState) (n : String) :
    isDebugEnabledNamed (expireTimer s) n = false := by
  unfold isDebugEnabledNamed
  have hm : (expireTimer s).debugMode = mapSetAll s.debugMode false := rfl
  rw [hm, mapLookup_mapSetAll]
  cases mapLookup s.debugMode n <;> rfl

/-- Effect of one registry operation on the lookup of a fixed name agrees
with the spec-side last-write step. -/
theorem lookup_applyOp (D : Nat) (s : LoggerState) (op : RegOp)
    (name : String) :
    mapLookup (applyOp D s op).debugMode name
      = specStep name (mapLookup s.debugMode name) op := by
  cases op with
  | update n b =>
      show mapLookup (mapInsert s.debugMode n b) name = _
      rw [mapLookup_mapInsert]
      rfl
  | enable n =>
      show mapLookup (enableDebugNamed D n s).debugMode name = _
      unfold enableDebugNamed
      split
      · rename_i v heq
        rw [processDebugSignal_debugMode, mapLookup_mapInsert]
        show _ = if n = name then (mapLookup s.debugMode name).map _
                 else mapLookup s.debugMode name
        by_cases h : n = name
        · subst h
          simp [heq]
        · simp [h]
      · rename_i heq
        rw [processDebugSignal_debugMode]
        show _ = if n = name then (mapLookup s.debugMode name).map _
                 else mapLookup s.debugMode name
        by_cases h : n = name
        · subst h
          simp [heq]
        · simp [h]
  | disable n =>
      show mapLookup (disableDebugNamed D n s).debugMode name = _
      unfold disableDebugNamed
      split
      · rename_i v heq
        rw [processDebugSignal_debugMode, mapLookup_mapInsert]
        show _ = if n = name then (mapLookup s.debugMode name).map _
                 else mapLookup s.debugMode name
        by_cases h : n = name
        · subst h
          simp [heq]
        · simp [h]
      · rename_i heq
        rw [processDebugSignal_debugMode]
        show _ = if n = name then (mapLookup s.debugMode name).map _
                 else mapLookup s.debugMode name
        by_cases h : n = name
        · subst h
          simp [heq]
        · simp [h]

/-- Lookup of a name after running a sequence of registry operations folds
the spec-side last-write step over the sequence. -/
theorem lookup_runOps (D : Nat) (ops : List RegOp) (name : String) :
    ∀ s : LoggerState,
      mapLookup (runOps D ops s).debugMode name
        = ops.foldl (specStep name) (mapLookup s.debugMode name) := by
  induction ops with
  | nil => intro s; rfl
  | cons op rest ih =>
      intro s
      show mapLookup (runOps D rest (applyOp D s op)).debugMode name = _
      rw [ih (applyOp D s op), lookup_applyOp]
      rfl

/-- C1: for every sequence of UpdateDebugMap / EnableDebug(name) /
DisableDebug(name) operations run from a freshly configured logger,
IsDebugEnabled(name) returns the last boolean value written for name when
name was ever inserted and false when it never was, and the named query
reads only the per-service entry, never the global flag. -/
theorem c1_named_query_is_last_write (D : Nat) (ops : List RegOp)
    (name : String) :
    (isDebugEnabledNamed (runOps D ops startedLogger) name
      = (specLastWrite ops name).getD false)
  ∧ (∀ (s : LoggerState) (b : Bool) (n : String),
      isDebugEnabledNamed { s with systemDebug := b } n
        = isDebugEnabledNamed s n) := by
  constructor
  · unfold isDebugEnabledNamed specLastWrite
    rw [lookup_runOps]
    rfl
  · intro s b n
    rfl

/-- C2 refuted: register service a as false, raise the global flag with
EnableDebug() (which also sets the entry true and arms the timer), then
DisableDebug("a"); goDebug finds no true entry and disarms even though the
global flag is still true, so the timer is not Armed while the global flag
is true, and the disarm decision ignored the global flag. -/
theorem c2_counterexample :
    (disableDebugNamed 3 "a"
        (enableDebugAll 3 (updateDebugMap startedLogger "a" false))).timer
      = none
  ∧ (disableDebugNamed 3 "a"
        (enableDebugAll 3 (updateDebugMap startedLogger "a" false))).systemDebug
      = true := by
  decide

/-- C2 amended: after a Disable of one service the loop disarms exactly when
no registry entry remains true, consulting only the registry and never the
global flag, and otherwise leaves the running countdown unmodified; any
named Enable arms the timer with the full duration, EnableAll arms it, and
DisableAll always disarms it. -/
theorem c2_amended_disarm_ignores_global_flag (D : Nat) (n : String)
    (s : LoggerState) :
    ((disableDebugNamed D n s).timer
      = if mapAnyTrue (disableDebugNamed D n s).debugMode then s.timer
        else none)
  ∧ (enableDebugNamed D n s).timer = some D
  ∧ (enableDebugAll D s).timer = some D
  ∧ (disableDebugAll D s).timer = none := by
  refine ⟨?_, enableDebugNamed_timer D n s, rfl, ?_⟩
  · unfold disableDebugNamed processDebugSignal
    split
    · rename_i v heq
      simp only [Bool.false_eq_true, if_false]
      by_cases h2 : mapAnyTrue (mapInsert s.debugMode n false) = true <;>
        simp [h2]
    · rename_i heq
      simp only [Bool.false_eq_true, if_false]
      by_cases h2 : mapAnyTrue s.debugMode = true <;> simp [h2]
  · show (processDebugSignal D false _).timer = none
    unfold processDebugSignal
    simp [mapAnyTrue_mapSetAll_false]

/-- C5 refuted: EnableDebug() on an empty registry sets the global flag
true, yet IsDebugEnabled("x") for the unregistered name x still returns
false, so a true global flag does not make every named query report
enabled. -/
theorem c5_counterexample :
    (enableDebugAll 3 startedLogger).systemDebug = true
  ∧ isDebugEnabledNamed (enableDebugAll 3 startedLogger) "x" = false := by
  decide

/-- C5 amended: the named query never consults the global flag; setting the
global flag true via EnableDebug() also sets every entry present in the
registry to true, so immediately afterwards a named query reports enabled
exactly for the names registered at that moment, while the unnamed query
reports the (true) global flag. -/
theorem c5_amended_named_query_ignores_global_flag (D : Nat)
    (s : LoggerState) (n : String) (b : Bool) :
    (isDebugEnabledNamed { s with systemDebug := b } n
      = isDebugEnabledNamed s n)
  ∧ (isDebugEnabledNamed (enableDebugAll D s) n
      = checkDebugMap (enableDebugAll D s) n)
  ∧ isDebugEnabledGlobal (enableDebugAll D s) = true := by
  refine ⟨rfl, ?_, rfl⟩
  unfold isDebugEnabledNamed checkDebugMap
  have hm : (enableDebugAll D s).debugMode = mapSetAll s.debugMode true := by
    show (processDebugSignal D true _).debugMode = _
    rw [processDebugSignal_debugMode]
  rw [hm, mapLookup_mapSetAll]
  cases mapLookup s.debugMode n <;> rfl

/-- C3: when the Armed timer reaches zero with no intervening activity, the
expiry branch of goDebug sets every registry entry and the global flag to
false and logs the informational event, so with configured duration D an
EnableDebug(X) followed by at least D units of inactivity leaves
IsDebugEnabled(X) false and the global flag false with no explicit Disable
call. -/
theorem c3_idle_expiry_resets_all (D k : Nat) (X : String) (s : LoggerState)
    (hD : 1 ≤ D) (hk : D ≤ k) :
    mapAnyTrue (elapse k (enableDebugNamed D X s)).debugMode = false
  ∧ (elapse k (enableDebugNamed D X s)).systemDebug = false
  ∧ isDebugEnabledNamed (elapse k (enableDebugNamed D X s)) X = false
  ∧ "Debug Timer Expired" ∈ (elapse k (enableDebugNamed D X s)).events := by
  have h2 : elapse k (enableDebugNamed D X s)
      = expireTimer (enableDebugNamed D X s) := by
    have hks : k = D + (k - D) := by omega
    rw [hks, elapse_add,
        elapse_fire D (enableDebugNamed D X s) (enableDebugNamed_timer D X s) hD,
        elapse_none (k - D) _ rfl]
  rw [h2]
  refine ⟨expireTimer_anyTrue _, rfl, isDebugEnabledNamed_expireTimer _ X, ?_⟩
  show "Debug Timer Expired" ∈ (enableDebugNamed D X s).events ++ ["Debug Timer Expired"]
  simp

/-- Witness for C3 at duration 2, waiting 3 units, with service x
registered as false before being enabled. -/
theorem c3_witness :
    1 ≤ 2 ∧ 2 ≤ 3
  ∧ (mapAnyTrue (elapse 3 (enableDebugNamed 2 "x"
        (updateDebugMap startedLogger "x" false))).debugMode = false
    ∧ (elapse 3 (enableDebugNamed 2 "x"
        (updateDebugMap startedLogger "x" false))).systemDebug = false
    ∧ isDebugEnabledNamed (elapse 3 (enableDebugNamed 2 "x"
        (updateDebugMap startedLogger "x" false))) "x" = false
    ∧ "Debug Timer Expired" ∈ (elapse 3 (enableDebugNamed 2 "x"
        (updateDebugMap startedLogger "x" false))).events) :=
  ⟨by decide, by decide,
   c3_idle_expiry_resets_all 2 3 "x" (updateDebugMap startedLogger "x" false)
     (by decide) (by decide)⟩

/-- C4: any named EnableDebug re-arms the timer with the full configured
duration D, discarding the remaining countdown, so after EnableDebug(X) and
k < D units of inactivity a second EnableDebug(Y) leaves a full window: the
timer holds D, does not fire within the next j < D units, and fires the
expiry branch exactly D units after the second enable. -/
theorem c4_enable_rearms_full_duration (D k : Nat) (X Y : String)
    (s : LoggerState) (hD : 1 ≤ D) (_hk : k < D) :
    (enableDebugNamed D Y (elapse k (enableDebugNamed D X s))).timer = some D
  ∧ (∀ j, j < D →
      (elapse j (enableDebugNamed D Y
        (elapse k (enableDebugNamed D X s)))).timer = some (D - j))
  ∧ elapse D (enableDebugNamed D Y (elapse k (enableDebugNamed D X s)))
      = expireTimer (enableDebugNamed D Y (elapse k (enableDebugNamed D X s))) := by
  refine ⟨enableDebugNamed_timer D Y _, ?_, ?_⟩
  · intro j hj
    rw [elapse_countdown j D _ (enableDebugNamed_timer D Y _) hj]
  · exact elapse_fire D _ (enableDebugNamed_timer D Y _) hD

/-- Witness for C4 at duration 4 with the second enable after 2 units. -/
theorem c4_witness :
    1 ≤ 4 ∧ 2 < 4
  ∧ ((enableDebugNamed 4 "y"
        (elapse 2 (enableDebugNamed 4 "x" startedLogger))).timer = some 4
    ∧ (∀ j, j < 4 →
        (elapse j (enableDebugNamed 4 "y"
          (elapse 2 (enableDebugNamed 4 "x" startedLogger)))).timer
          = some (4 - j))
    ∧ elapse 4 (enableDebugNamed 4 "y"
        (elapse 2 (enableDebugNamed 4 "x" startedLogger)))
      = expireTimer (enableDebugNamed 4 "y"
          (elapse 2 (enableDebugNamed 4 "x" startedLogger)))) :=
  ⟨by decide, by decide,
   c4_enable_rearms_full_duration 4 2 "x" "y" startedLogger
     (by decide) (by decide)⟩

/-- C6 refuted: EnableDebug() sets the global flag true, and Stop() then
replaces the registry with a fresh map but never clears systemDebug, so the
flag is still true after Stop(). -/
theorem c6_counterexample :
    (stop (enableDebugAll 3 startedLogger)).1.systemDebug = true := by
  decide

/-- C6 amended: Stop() on a started controller exits the loop, resets the
registry to a fresh empty map, disarms the timer and returns nil, but
leaves the global debug flag unchanged; a following Start() yields an empty
registry and a disarmed timer with the global flag still holding its prior
value. -/
theorem c6_amended_stop_keeps_global_flag (s : LoggerState) :
    (stop { s with started := true }).1.debugMode = []
  ∧ (stop { s with started := true }).1.timer = none
  ∧ (stop { s with started := true }).1.started = false
  ∧ (stop { s with started := true }).1.systemDebug = s.systemDebug
  ∧ (stop { s with started := true }).2 = none
  ∧ (start (stop { s with started := true }).1).1.debugMode = []
  ∧ (start (stop { s with started := true }).1).1.timer = none
  ∧ (start (stop { s with started := true }).1).1.started = true := by
  refine ⟨rfl, rfl, rfl, rfl, rfl, rfl, rfl, rfl⟩

/-- C7 refuted: Start() on an already started logger and Stop() on a
stopped one both return the zero-valued err, which is nil, not a non-nil
descriptive error. -/
theorem c7_counterexample :
    (start startedLogger).2 = none ∧ (stop stoppedLogger).2 = none := by
  decide

/-- C7 amended: Start() while already running and Stop() while not running
are silent no-ops: each returns a nil error and leaves the whole state
unchanged; neither is fatal. -/
theorem c7_amended_lifecycle_misuse_is_silent_noop (s : LoggerState) :
    start { s with started := true } = ({ s with started := true }, none)
  ∧ stop { s with started := false } = ({ s with started := false }, none) :=
  ⟨rfl, rfl⟩

/-- C8: EnableDebug() with no name sets the global flag and every existing
entry true, so afterwards the named query is true exactly for the names
registered beforehand and the unnamed query is true; DisableDebug() with no
name sets every entry and the global flag false, so every query reports
false. -/
theorem c8_enable_all_and_disable_all (D : Nat) (s : LoggerState)
    (n : String) :
    isDebugEnabledNamed (enableDebugAll D s) n = checkDebugMap s n
  ∧ isDebugEnabledGlobal (enableDebugAll D s) = true
  ∧ isDebugEnabledNamed (disableDebugAll D s) n = false
  ∧ isDebugEnabledGlobal (disableDebugAll D s) = false := by
  refine ⟨?_, rfl, ?_, ?_⟩
  case refine_3 =>
    show (processDebugSignal D false _).systemDebug = false
    rw [processDebugSignal_systemDebug]
  · unfold isDebugEnabledNamed checkDebugMap
    have hm : (enableDebugAll D s).debugMode = mapSetAll s.debugMode true := by
      show (processDebugSignal D true _).debugMode = _
      rw [processDebugSignal_debugMode]
    rw [hm, mapLookup_mapSetAll]
    cases mapLookup s.debugMode n <;> rfl
  · unfold isDebugEnabledNamed
    have hm : (disableDebugAll D s).debugMode = mapSetAll s.debugMode false := by
      show (processDebugSignal D false _).debugMode = _
      rw [processDebugSignal_debugMode]
    rw [hm, mapLookup_mapSetAll]
    cases mapLookup s.debugMode n <;> rfl

/-- C9: EnableDebug(name) and DisableDebug(name) for a name absent from the
registry leave the registry map and the global flag unchanged, and in
particular a global EnableDebug() followed by DisableDebug of an
unregistered name leaves the global flag true. -/
theorem c9_unregistered_toggle_is_noop (D : Nat) (s : LoggerState)
    (n : String) (h : checkDebugMap s n = false) :
    (enableDebugNamed D n s).debugMode = s.debugMode
  ∧ (enableDebugNamed D n s).systemDebug = s.systemDebug
  ∧ (disableDebugNamed D n s).debugMode = s.debugMode
  ∧ (disableDebugNamed D n s).systemDebug = s.systemDebug
  ∧ (disableDebugNamed D n (enableDebugAll D s)).systemDebug = true := by
  have hl : mapLookup s.debugMode n = none := by
    unfold checkDebugMap at h
    cases hl2 : mapLookup s.debugMode n with
    | none => rfl
    | some v => rw [hl2] at h; simp at h
  refine ⟨?_, enableDebugNamed_systemDebug D n s, ?_,
          disableDebugNamed_systemDebug D n s, ?_⟩
  · unfold enableDebugNamed
    rw [hl]
    exact processDebugSignal_debugMode D true s
  · unfold disableDebugNamed
    rw [hl]
    exact processDebugSignal_debugMode D false s
  · rw [disableDebugNamed_systemDebug]
    rfl

/-- Witness for C9 with the unregistered name svc-a on a fresh logger. -/
theorem c9_witness :
    checkDebugMap startedLogger "svc-a" = false
  ∧ ((enableDebugNamed 1 "svc-a" startedLogger).debugMode
        = startedLogger.debugMode
    ∧ (enableDebugNamed 1 "svc-a" startedLogger).systemDebug
        = startedLogger.systemDebug
    ∧ (disableDebugNamed 1 "svc-a" startedLogger).debugMode
        = startedLogger.debugMode
    ∧ (disableDebugNamed 1 "svc-a" startedLogger).systemDebug
        = startedLogger.systemDebug
    ∧ (disableDebugNamed 1 "svc-a"
        (enableDebugAll 1 startedLogger)).systemDebug = true) :=
  ⟨by decide, c9_unregistered_toggle_is_noop 1 startedLogger "svc-a" (by decide)⟩

/-- C10 refuted: NewLogger leaves debugModeMap as the zero value of
ServiceDebug, a nil map with a nil mutex pointer, so UpdateDebugMap and the
named IsDebugEnabled called before Configure dereference the nil mutex and
panic rather than being well-defined. -/
theorem c10_counterexample :
    rawUpdateDebugMap newLogger "svc-a" true = Except.error nilDeref
  ∧ rawIsDebugEnabledNamed newLogger "svc-a" = Except.error nilDeref :=
  ⟨rfl, rfl⟩

/-- C10 amended: immediately after construction by NewLogger the global
flag is false but the registry is the nil zero value, so the named
operations that lock the registry mutex (UpdateDebugMap, EnableDebug,
DisableDebug, the named IsDebugEnabled) panic on a nil mutex until
Configure runs; only CheckDebugMap, which reads the nil map without
locking, is safe and reports false. After Configure the registry exists and
is empty and every one of these named operations is well-defined and does
not crash. -/
theorem c10_amended_named_ops_safe_only_after_configure (n : String)
    (b : Bool) :
    newLogger.systemDebug = false
  ∧ newLogger.debugModeMap = none
  ∧ rawCheckDebugMap newLogger n = false
  ∧ rawOk (rawUpdateDebugMap newLogger n b) = false
  ∧ rawOk (rawIsDebugEnabledNamed newLogger n) = false
  ∧ rawOk (rawEnableDebugNamed newLogger n) = false
  ∧ rawOk (rawDisableDebugNamed newLogger n) = false
  ∧ (configure newLogger).debugModeMap = some []
  ∧ rawOk (rawUpdateDebugMap (configure newLogger) n b) = true
  ∧ rawOk (rawIsDebugEnabledNamed (configure newLogger) n) = true
  ∧ rawOk (rawEnableDebugNamed (configure newLogger) n) = true
  ∧ rawOk (rawDisableDebugNamed (configure newLogger) n) = true
  ∧ rawCheckDebugMap (configure newLogger) n = false :=
  ⟨rfl, rfl, rfl, rfl, rfl, rfl, rfl, rfl, rfl, rfl, rfl, rfl, rfl⟩

end LoggerGo
